import Mathlib

/-!
Verification of the dialfa-bi analytics core: shallow embedding of the
risk-scoring, ABC-classification, stock-health, reorder and forecasting
logic, with theorems about the claimed properties.

Numeric columns of the tabular inputs are embedded as rationals where the
source performs only field arithmetic, and as reals where the source takes
square roots (the SQL reorder calculations).
-/

/- ## Risk & Classification Engine (analytics/utils.py, calculate_risk_score) -/

/-- Points contributed by the overdue-percentage bucket chain of
`calculate_risk_score` (`if overdue_pct > 50 ... elif > 20 ... elif > 10`). -/
def overduePoints (overduePct : ℚ) : ℚ :=
  if overduePct > 50 then 40
  else if overduePct > 20 then 20
  else if overduePct > 10 then 10
  else 0

/-- Points contributed by the balance bucket chain of `calculate_risk_score`
(`if balance > 1000000 ... elif > 500000 ... elif > 100000`). -/
def balancePoints (balance : ℚ) : ℚ :=
  if balance > 1000000 then 30
  else if balance > 500000 then 20
  else if balance > 100000 then 10
  else 0

/-- `calculate_risk_score`: additive buckets, result capped with
`min(score, 100)`. -/
def calculate_risk_score (overduePct balance : ℚ) : ℚ :=
  min (overduePoints overduePct + balancePoints balance) 100

/- ## Stock health (database/queries.py, STOCK_VELOCITY_SUMMARY CASE) -/

inductive StockHealth where
  | OUT_OF_STOCK | DEAD_STOCK | LOW_STOCK | OVERSTOCK | HEALTHY
  deriving DecidableEq, Repr

/-- The `StockHealthStatus` CASE expression.  `NULLIF(AvgMonthlySales, 0)`
makes both division comparisons NULL (hence not taken) when the average is
zero, which the embedding renders as an explicit `avg ≠ 0` guard. -/
def stockHealthStatus (stock avg : ℚ) : StockHealth :=
  if stock = 0 then .OUT_OF_STOCK
  else if avg = 0 ∧ stock > 0 then .DEAD_STOCK
  else if avg ≠ 0 ∧ stock / avg < 1 then .LOW_STOCK
  else if avg ≠ 0 ∧ stock / avg > 6 then .OVERSTOCK
  else .HEALTHY

/-- The spec's first-match rule chain for stock health, written exactly in
the order the spec lists the rules. -/
def specStockHealth (stock avg : ℚ) : StockHealth :=
  if stock = 0 then .OUT_OF_STOCK
  else if avg = 0 ∧ stock > 0 then .DEAD_STOCK
  else if stock / avg < 1 then .LOW_STOCK
  else if stock / avg > 6 then .OVERSTOCK
  else .HEALTHY

/- ## Executive summary ratio (analytics/financial.py, get_executive_summary) -/

/-- `overdue_percentage`: `(TotalOverdue / TotalOutstanding) * 100 if
TotalOutstanding > 0 else 0`. -/
def overduePercentage (overdue outstanding : ℚ) : ℚ :=
  if outstanding > 0 then overdue / outstanding * 100 else 0

/- ## ABC classification (analytics/inventory.py) -/

inductive ABC where
  | A | B | C
  deriving DecidableEq, Repr

/-- `_assign_abc_category`. -/
def assign_abc_category (cumulativePercentage : ℚ) : ABC :=
  if cumulativePercentage ≤ 80 then .A
  else if cumulativePercentage ≤ 95 then .B
  else .C

/-- Per-item `SalesPercentage` column of `get_abc_analysis`:
`SalesValue / total * 100` when the total is positive, else 0. -/
def salesPercentage (vals : List ℚ) : List ℚ :=
  if 0 < vals.sum then vals.map (fun v => v / vals.sum * 100)
  else vals.map (fun _ => 0)

/-- Running `cumsum` over a list starting from accumulator `acc`. -/
def cumsum (acc : ℚ) : List ℚ → List ℚ
  | [] => []
  | v :: t => (acc + v) :: cumsum (acc + v) t

/-- `CumulativePercentage` column: cumulative sum of `SalesPercentage`. -/
def cumulativePercentage (vals : List ℚ) : List ℚ :=
  cumsum 0 (salesPercentage vals)

/- ## Forecast Ensemble Engine (analytics/financial.py) -/

/-- `pandas .mean()` over a list of values. -/
def listMean (l : List ℚ) : ℚ := l.sum / l.length

/-- The last `n` elements of a list (`tail(n)` / the last rolling window). -/
def lastN (n : ℕ) (l : List ℚ) : List ℚ := l.drop (l.length - n)

/-- Ordinary-least-squares slope of `np.polyfit(x, y, 1)` with
`x = 0, 1, ..., N-1`. -/
def olsSlope (hist : List ℚ) : ℚ :=
  let n : ℚ := hist.length
  let sx : ℚ := (((List.range hist.length).map (fun k => (k : ℚ)))).sum
  let sxx : ℚ := (((List.range hist.length).map (fun k => ((k : ℚ)) ^ 2))).sum
  let sxy : ℚ := ((hist.enum.map (fun p => ((p.1 : ℚ)) * p.2))).sum
  (n * sxy - sx * hist.sum) / (n * sxx - sx ^ 2)

/-- Ordinary-least-squares intercept of `np.polyfit(x, y, 1)`. -/
def olsIntercept (hist : List ℚ) : ℚ :=
  let sx : ℚ := (((List.range hist.length).map (fun k => (k : ℚ)))).sum
  (hist.sum - olsSlope hist * sx) / hist.length

/-- `_linear_trend_forecast`: mean-fallback below two points, otherwise OLS
projection onto indices `N .. N+H-1`, clamped at zero with `np.maximum`. -/
def linear_trend_forecast (hist : List ℚ) (horizon : ℕ) : List ℚ :=
  if hist.length < 2 then List.replicate horizon (listMean hist)
  else
    (List.range horizon).map fun j =>
      max (olsSlope hist * ((hist.length : ℚ) + (j : ℚ)) + olsIntercept hist) 0

/-- Seasonal factor of `_seasonal_forecast`: per-calendar-month mean divided
by the overall mean, defaulting to 1 for months absent from the history
(`seasonal_factors.get(month_num, 1.0)`). -/
def seasonalFactor (hist : List (ℕ × ℚ)) (month : ℕ) : ℚ :=
  let ms := (hist.filter (fun p => p.1 = month)).map Prod.snd
  if ms.isEmpty then 1 else listMean ms / listMean (hist.map Prod.snd)

/-- `_seasonal_forecast`: linear-trend fallback below 12 points, otherwise
the trend projection scaled by the future month's seasonal factor and
clamped with `max(·, 0)`. -/
def seasonal_forecast (hist : List (ℕ × ℚ)) (futureMonths : List ℕ) : List ℚ :=
  if hist.length < 12 then
    linear_trend_forecast (hist.map Prod.snd) futureMonths.length
  else
    (futureMonths.zip (linear_trend_forecast (hist.map Prod.snd) futureMonths.length)).map
      fun p => max (p.2 * seasonalFactor hist p.1) 0

/-- Recursive smoothing step: `smoothed[i] = α*actual[i] + (1-α)*smoothed[i-1]`
with `α = 0.3`. -/
def smoothFrom (prev : ℚ) : List ℚ → List ℚ
  | [] => []
  | y :: t => (0.3 * y + 0.7 * prev) :: smoothFrom (0.3 * y + 0.7 * prev) t

/-- The full smoothed series (`smoothed[0] = actual[0]`). -/
def smoothedSeries (hist : List ℚ) : List ℚ :=
  match hist with
  | [] => []
  | v :: t => v :: smoothFrom v t

/-- `_exponential_smoothing_forecast`: empty history yields zeros; otherwise
extrapolate the last smoothed value with `(smoothed[-1] - smoothed[-3]) / 2`
(zero below three points), clamping each value with `max(·, 0)`. -/
def exponential_smoothing_forecast (hist : List ℚ) (horizon : ℕ) : List ℚ :=
  if hist.isEmpty then List.replicate horizon 0
  else
    let smoothed := smoothedSeries hist
    let lastSmoothed := smoothed.reverse.getD 0 0
    let recentTrend :=
      if 3 ≤ smoothed.length then (lastSmoothed - smoothed.reverse.getD 2 0) / 2 else 0
    (List.range horizon).map fun i =>
      max (lastSmoothed + recentTrend * ((i : ℚ) + 1)) 0

/-- Average period-over-period growth rate of `_moving_average_forecast`:
over consecutive pairs of the last six observations, skipping transitions
whose prior value is not positive; zero when no rate survives. -/
def avgGrowthRate (hist : List ℚ) : ℚ :=
  let recent := lastN 6 hist
  let rates := (recent.zip recent.tail).filterMap
    (fun p => if p.1 > 0 then some ((p.2 - p.1) / p.1) else none)
  if rates.isEmpty then 0 else listMean rates

/-- `_moving_average_forecast`: mean-fallback below three points, otherwise
the trailing `min(6, N)`-month moving average compounded by
`(1 + growthRate)` per future month and clamped with `max(·, 0)`. -/
def moving_average_forecast (hist : List ℚ) (horizon : ℕ) : List ℚ :=
  if hist.length < 3 then List.replicate horizon (listMean hist)
  else
    let ma := listMean (lastN (min 6 hist.length) hist)
    (List.range horizon).map fun i =>
      max (ma * (1 + avgGrowthRate hist) ^ (i + 1)) 0

/-- One record of `_apply_forecasting_algorithms`: the four component
forecasts, the weighted ensemble and the confidence interval. -/
structure ForecastPoint where
  trend : ℚ
  seasonal : ℚ
  exponential : ℚ
  movingAverage : ℚ
  ensemble : ℚ
  confidenceLower : ℚ
  confidenceUpper : ℚ
  deriving DecidableEq, Repr

/-- `_apply_forecasting_algorithms`: per future index, read each component
list (`alg[i] if i < len(alg) else 0`), combine with the 0.25/0.35/0.25/0.15
weights, and attach the ±15% confidence band. -/
def apply_forecasting_algorithms (hist : List (ℕ × ℚ)) (futureMonths : List ℕ) :
    List ForecastPoint :=
  let hvals := hist.map Prod.snd
  let horizon := futureMonths.length
  let tr := linear_trend_forecast hvals horizon
  let se := seasonal_forecast hist futureMonths
  let ex := exponential_smoothing_forecast hvals horizon
  let ma := moving_average_forecast hvals horizon
  (List.range horizon).map fun i =>
    let t := tr.getD i 0
    let s := se.getD i 0
    let e := ex.getD i 0
    let m := ma.getD i 0
    let ens := t * 0.25 + s * 0.35 + e * 0.25 + m * 0.15
    ⟨t, s, e, m, ens, ens * 0.85, ens * 1.15⟩

/- ## Demand & Reorder Calculator (database/queries.py, REORDER_ANALYSIS) -/

/-- A row of the `ProductDemand` CTE: the columns the reorder calculations
read.  Numeric SQL columns are embedded as reals (the query applies `SQRT`);
`NULL` demand columns are already coalesced to 0 by the query. -/
structure Item where
  supplierCountry : String
  currentStock : ℝ
  unitPrice : ℝ
  last90DaysSales : ℝ
  discontinuado : Bool

/-- `AvgDailyDemand = COALESCE(sales.Last90DaysSales, 0) / 90.0`. -/
noncomputable def avgDailyDemand (i : Item) : ℝ := i.last90DaysSales / 90

/-- `DemandStdDev`: `SQRT(Last90DaysSales / 90.0) * 1.5` when the item sold
in the last 90 days, else 0. -/
noncomputable def demandStdDev (i : Item) : ℝ :=
  if i.last90DaysSales > 0 then Real.sqrt (i.last90DaysSales / 90) * 1.5 else 0

/-- `EstimatedLeadTimeDays` CASE over the supplier country. -/
noncomputable def estimatedLeadTimeDays (i : Item) : ℝ :=
  if i.supplierCountry = "China" then 60
  else if i.supplierCountry = "India" then 45
  else 30

/-- `SafetyStock` CASE: the query repeats the per-country formula
`DemandStdDev * SQRT(leadTime) * 1.65` branch by branch. -/
noncomputable def safetyStock (i : Item) : ℝ :=
  if i.supplierCountry = "China" then demandStdDev i * Real.sqrt 60 * 1.65
  else if i.supplierCountry = "India" then demandStdDev i * Real.sqrt 45 * 1.65
  else demandStdDev i * Real.sqrt 30 * 1.65

/-- `ReorderPoint` CASE: per country,
`AvgDailyDemand * leadTime + DemandStdDev * SQRT(leadTime) * 1.65`. -/
noncomputable def reorderPoint (i : Item) : ℝ :=
  if i.supplierCountry = "China" then
    avgDailyDemand i * 60 + demandStdDev i * Real.sqrt 60 * 1.65
  else if i.supplierCountry = "India" then
    avgDailyDemand i * 45 + demandStdDev i * Real.sqrt 45 * 1.65
  else
    avgDailyDemand i * 30 + demandStdDev i * Real.sqrt 30 * 1.65

/-- `EOQ`: Wilson formula when demand and price are both positive, else 0. -/
noncomputable def eoq (i : Item) : ℝ :=
  if avgDailyDemand i > 0 ∧ i.unitPrice > 0 then
    Real.sqrt ((2 * avgDailyDemand i * 365 * 100) / (i.unitPrice * 0.25))
  else 0

/-- `DaysOfCoverage`: `CurrentStock / AvgDailyDemand` when demand is
positive, else the sentinel 999. -/
noncomputable def daysOfCoverage (i : Item) : ℝ :=
  if avgDailyDemand i > 0 then i.currentStock / avgDailyDemand i else 999

/-- `SuggestedOrderQuantity`: `CEILING` of the larger of `EOQ` and
`ReorderPoint - CurrentStock + SafetyStock` when the stock is below the
reorder point, else 0. -/
noncomputable def suggestedOrderQuantity (i : Item) : ℝ :=
  if i.currentStock < reorderPoint i then
    ((⌈if eoq i > reorderPoint i - i.currentStock + safetyStock i then eoq i
       else reorderPoint i - i.currentStock + safetyStock i⌉ : ℤ) : ℝ)
  else 0

inductive ReorderPriority where
  | OUT_OF_STOCK | URGENT | HIGH | MEDIUM | LOW | ADEQUATE
  deriving DecidableEq, Repr

/-- The `Priority` CASE of `FinalCalculations`, condition for condition. -/
noncomputable def priority (i : Item) : ReorderPriority :=
  if daysOfCoverage i ≤ 0 then .OUT_OF_STOCK
  else if i.currentStock < reorderPoint i ∧ daysOfCoverage i ≤ 15 then .URGENT
  else if i.currentStock < reorderPoint i ∧ daysOfCoverage i ≤ 30 then .HIGH
  else if i.currentStock < reorderPoint i ∧ daysOfCoverage i ≤ 60 then .MEDIUM
  else if i.currentStock < reorderPoint i then .LOW
  else .ADEQUATE

/-- The priority tiers as the claim states them: the coverage thresholds
alone decide URGENT/HIGH/MEDIUM, and the reorder point only separates
LOW from ADEQUATE. -/
noncomputable def specPriority (i : Item) : ReorderPriority :=
  if daysOfCoverage i ≤ 0 then .OUT_OF_STOCK
  else if daysOfCoverage i ≤ 15 then .URGENT
  else if daysOfCoverage i ≤ 30 then .HIGH
  else if daysOfCoverage i ≤ 60 then .MEDIUM
  else if i.currentStock < reorderPoint i then .LOW
  else .ADEQUATE

/-- The amended priority rule: below the reorder point the coverage
thresholds grade URGENT/HIGH/MEDIUM/LOW; at or above it the item is
ADEQUATE; zero or negative coverage is OUT_OF_STOCK in either case. -/
noncomputable def amendedPriority (i : Item) : ReorderPriority :=
  if daysOfCoverage i ≤ 0 then .OUT_OF_STOCK
  else if i.currentStock < reorderPoint i then
    if daysOfCoverage i ≤ 15 then .URGENT
    else if daysOfCoverage i ≤ 30 then .HIGH
    else if daysOfCoverage i ≤ 60 then .MEDIUM
    else .LOW
  else .ADEQUATE

/-- The `WHERE Last90DaysSales > 0` filter of `FinalCalculations`, over the
rows of the `ProductDemand` table. -/
noncomputable def reorderOutput (items : List Item) : List Item :=
  items.filter (fun i => 0 < i.last90DaysSales)

/- ### Spec reference definitions of the reorder quantities -/

/-- Spec reference: `avgDailyDemand = last90DaysSales / 90`. -/
noncomputable def refAvgDailyDemand (i : Item) : ℝ := i.last90DaysSales / 90

/-- Spec reference: `demandStdDev = sqrt(last90DaysSales / 90) * 1.5` when
sales are positive, else 0. -/
noncomputable def refDemandStdDev (i : Item) : ℝ :=
  if i.last90DaysSales > 0 then Real.sqrt (i.last90DaysSales / 90) * 1.5 else 0

/-- Spec reference: lead time 60 for China, 45 for India, 30 otherwise. -/
noncomputable def refLeadTimeDays (i : Item) : ℝ :=
  if i.supplierCountry = "China" then 60
  else if i.supplierCountry = "India" then 45
  else 30

/-- Spec reference: `safetyStock = demandStdDev * sqrt(leadTimeDays) * 1.65`. -/
noncomputable def refSafetyStock (i : Item) : ℝ :=
  refDemandStdDev i * Real.sqrt (refLeadTimeDays i) * 1.65

/-- Spec reference: `reorderPoint = avgDailyDemand * leadTimeDays + safetyStock`. -/
noncomputable def refReorderPoint (i : Item) : ℝ :=
  refAvgDailyDemand i * refLeadTimeDays i + refSafetyStock i

/-- Spec reference: Wilson EOQ when demand and price are both positive,
else 0. -/
noncomputable def refEOQ (i : Item) : ℝ :=
  if refAvgDailyDemand i > 0 ∧ i.unitPrice > 0 then
    Real.sqrt ((2 * refAvgDailyDemand i * 365 * 100) / (i.unitPrice * 0.25))
  else 0

/- ## Helper lemmas -/

theorem cumsum_chain (l : List ℚ) :
    ∀ acc : ℚ, (∀ v ∈ l, 0 ≤ v) →
      List.Chain' (· ≤ ·) (cumsum acc l) := by
  induction l with
  | nil => intro acc _; simp [cumsum]
  | cons v t ih =>
    intro acc h
    cases t with
    | nil => simp [cumsum]
    | cons w t2 =>
      have hv : (0:ℚ) ≤ w := h w (by simp)
      have htail := ih (acc + v) (fun x hx => h x (List.mem_cons_of_mem _ hx))
      simp only [cumsum] at htail ⊢
      exact List.chain'_cons.mpr ⟨by linarith, htail⟩

theorem listMean_nonneg {l : List ℚ} (h : ∀ v ∈ l, 0 ≤ v) : 0 ≤ listMean l := by
  unfold listMean
  exact div_nonneg (List.sum_nonneg h) (by positivity)

theorem linear_trend_forecast_nonneg {l : List ℚ} (h : ∀ v ∈ l, 0 ≤ v)
    (horizon : ℕ) : ∀ x ∈ linear_trend_forecast l horizon, 0 ≤ x := by
  intro x hx
  unfold linear_trend_forecast at hx
  split_ifs at hx with hlen
  · rw [List.eq_of_mem_replicate hx]
    exact listMean_nonneg h
  · obtain ⟨j, _, rfl⟩ := List.mem_map.mp hx
    exact le_max_right _ 0

theorem demandStdDev_nonneg (i : Item) : 0 ≤ demandStdDev i := by
  unfold demandStdDev
  split_ifs
  · positivity
  · exact le_refl 0

theorem safetyStock_nonneg (i : Item) : 0 ≤ safetyStock i := by
  unfold safetyStock
  have h := demandStdDev_nonneg i
  split_ifs <;> positivity

theorem sqrt_thirty_le_six : Real.sqrt 30 ≤ 6 := by
  have h1 : Real.sqrt 30 ≤ Real.sqrt 36 := Real.sqrt_le_sqrt (by norm_num)
  have h2 : Real.sqrt 36 = 6 := by
    rw [show (36 : ℝ) = 6 ^ 2 by norm_num, Real.sqrt_sq (by norm_num : (0:ℝ) ≤ 6)]
  linarith

/- ## Claim theorems -/

/-- C6: the credit risk score is the sum of the overdue-percentage and
balance point buckets capped by `min(sum, 100)`, always lies in `[0, 100]`,
and evaluates to exactly 70 at `overduePercentage = 60`,
`currentBalance = 1,200,000`. -/
theorem C6_risk_score_buckets_and_range (o b : ℚ) :
    calculate_risk_score o b = min (overduePoints o + balancePoints b) 100 ∧
    0 ≤ calculate_risk_score o b ∧ calculate_risk_score o b ≤ 100 ∧
    calculate_risk_score 60 1200000 = 70 := by
  refine ⟨rfl, ?_,  min_le_right _ _,
    by norm_num [calculate_risk_score, overduePoints, balancePoints, min_def]⟩
  unfold calculate_risk_score overduePoints balancePoints
  split_ifs <;> norm_num [min_def]

/-- C10: the credit risk score never exceeds 70 (so the `min(·, 100)` cap
never binds and the score equals the raw bucket sum), and it always lies in
`{0, 10, 20, 30, 40, 50, 60, 70}`. -/
theorem C10_risk_score_at_most_seventy (o b : ℚ) :
    calculate_risk_score o b = overduePoints o + balancePoints b ∧
    calculate_risk_score o b ≤ 70 ∧
    calculate_risk_score o b ∈ ({0, 10, 20, 30, 40, 50, 60, 70} : Finset ℚ) := by
  unfold calculate_risk_score overduePoints balancePoints
  split_ifs <;>
    refine ⟨by norm_num [min_def], by norm_num [min_def],
      by norm_num [Finset.mem_insert, min_def]⟩

/-- C8: for every row with nonnegative stock (the query keeps only
`CurrentStock >= 0`), the `StockHealthStatus` CASE agrees with the spec's
first-match rule chain, and zero stock yields OUT_OF_STOCK whatever the
sales history. -/
theorem C8_stock_health_first_match (stock avg : ℚ) (h : 0 ≤ stock) :
    stockHealthStatus stock avg = specStockHealth stock avg ∧
    (stock = 0 → stockHealthStatus stock avg = .OUT_OF_STOCK) := by
  constructor
  · unfold stockHealthStatus specStockHealth
    rcases eq_or_ne stock 0 with h0 | h0
    · simp [h0]
    · rcases eq_or_ne avg 0 with ha | ha
      · have hpos : stock > 0 := lt_of_le_of_ne h (Ne.symm h0)
        simp [h0, ha, hpos]
      · simp [h0, ha]
  · intro h0
    unfold stockHealthStatus
    simp [h0]

/-- Witness for C8 at the spec's example scenario: zero stock (with sales
history `avg = 2`) is OUT_OF_STOCK. -/
theorem C8_stock_health_first_match_witness :
    ((0 : ℚ) ≤ 0) ∧
    (stockHealthStatus 0 2 = specStockHealth 0 2 ∧
     ((0 : ℚ) = 0 → stockHealthStatus 0 2 = .OUT_OF_STOCK)) :=
  ⟨le_refl 0, C8_stock_health_first_match 0 2 (le_refl 0)⟩

/-- C9: `DaysOfCoverage` is the true ratio when average daily demand is
positive and the sentinel 999 otherwise, and the executive-summary overdue
percentage is 0 whenever total outstanding is not positive. -/
theorem C9_zero_denominator_sentinels (i : Item) (o t : ℚ) :
    (0 < avgDailyDemand i → daysOfCoverage i = i.currentStock / avgDailyDemand i) ∧
    (¬ 0 < avgDailyDemand i → daysOfCoverage i = 999) ∧
    (¬ 0 < t → overduePercentage o t = 0) := by
  refine ⟨fun h => ?_, fun h => ?_, fun h => ?_⟩
  · unfold daysOfCoverage; rw [if_pos h]
  · unfold daysOfCoverage; rw [if_neg h]
  · unfold overduePercentage; rw [if_neg h]

/-- Witness for C9 at concrete inputs: an item with no recent sales gets the
999 sentinel, an item selling 90 units in 90 days gets the true ratio, and a
zero outstanding total gives a zero overdue percentage. -/
theorem C9_zero_denominator_sentinels_witness :
    daysOfCoverage ⟨"China", 5, 2, 0, false⟩ = 999 ∧
    daysOfCoverage ⟨"China", 5, 2, 90, false⟩ =
      (Item.currentStock ⟨"China", 5, 2, 90, false⟩) /
        avgDailyDemand ⟨"China", 5, 2, 90, false⟩ ∧
    overduePercentage 5 0 = 0 := by
  refine ⟨(C9_zero_denominator_sentinels ⟨"China", 5, 2, 0, false⟩ 5 0).2.1 ?_,
    (C9_zero_denominator_sentinels ⟨"China", 5, 2, 90, false⟩ 5 0).1 ?_,
    (C9_zero_denominator_sentinels ⟨"China", 5, 2, 0, false⟩ 5 0).2.2 ?_⟩
  · norm_num [avgDailyDemand]
  · norm_num [avgDailyDemand]
  · norm_num

/-- C4 counterexample: for the length-1 history `[-1]` and horizon 1 the
linear-trend algorithm returns the unclamped mean `[-1]`, a negative
forecast value, so the claimed nonnegativity for histories of any length
and sign fails. -/
theorem C4_counterexample :
    linear_trend_forecast [(-1 : ℚ)] 1 = [-1] ∧
    ¬ ∀ x ∈ linear_trend_forecast [(-1 : ℚ)] 1, 0 ≤ x := by
  have h : linear_trend_forecast [(-1 : ℚ)] 1 = [-1] := by
    norm_num [linear_trend_forecast, listMean]
  refine ⟨h, fun hall => ?_⟩
  have := hall (-1) (by rw [h]; exact List.mem_singleton_self _)
  linarith

/-- C4 amended: for every nonempty monthly history all of whose values are
nonnegative and every horizon, each value produced by each of the four
component forecast algorithms is nonnegative. -/
theorem C4_component_forecasts_nonneg (hist : List (ℕ × ℚ))
    (futureMonths : List ℕ) (horizon : ℕ) (hne : hist ≠ [])
    (hnn : ∀ p ∈ hist, 0 ≤ p.2) :
    (∀ x ∈ linear_trend_forecast (hist.map Prod.snd) horizon, 0 ≤ x) ∧
    (∀ x ∈ seasonal_forecast hist futureMonths, 0 ≤ x) ∧
    (∀ x ∈ exponential_smoothing_forecast (hist.map Prod.snd) horizon, 0 ≤ x) ∧
    (∀ x ∈ moving_average_forecast (hist.map Prod.snd) horizon, 0 ≤ x) := by
  have hvals : ∀ v ∈ hist.map Prod.snd, 0 ≤ v := by
    intro v hv
    obtain ⟨p, hp, rfl⟩ := List.mem_map.mp hv
    exact hnn p hp
  refine ⟨linear_trend_forecast_nonneg hvals horizon, ?_, ?_, ?_⟩
  · intro x hx
    unfold seasonal_forecast at hx
    split_ifs at hx with hlen
    · exact linear_trend_forecast_nonneg hvals _ x hx
    · obtain ⟨p, _, rfl⟩ := List.mem_map.mp hx
      exact le_max_right _ 0
  · intro x hx
    unfold exponential_smoothing_forecast at hx
    split_ifs at hx with hempty
    · rw [List.eq_of_mem_replicate hx]
    · obtain ⟨j, _, rfl⟩ := List.mem_map.mp hx
      exact le_max_right _ 0
  · intro x hx
    unfold moving_average_forecast at hx
    split_ifs at hx with hlen
    · rw [List.eq_of_mem_replicate hx]
      exact listMean_nonneg hvals
    · obtain ⟨j, _, rfl⟩ := List.mem_map.mp hx
      exact le_max_right _ 0

/-- Witness for C4 at the concrete history `[(1, 2)]`, horizon 1. -/
theorem C4_component_forecasts_nonneg_witness :
    ([((1 : ℕ), (2 : ℚ))] ≠ []) ∧
    ((∀ x ∈ linear_trend_forecast ([((1 : ℕ), (2 : ℚ))].map Prod.snd) 1, 0 ≤ x) ∧
     (∀ x ∈ seasonal_forecast [((1 : ℕ), (2 : ℚ))] [2], 0 ≤ x) ∧
     (∀ x ∈ exponential_smoothing_forecast ([((1 : ℕ), (2 : ℚ))].map Prod.snd) 1, 0 ≤ x) ∧
     (∀ x ∈ moving_average_forecast ([((1 : ℕ), (2 : ℚ))].map Prod.snd) 1, 0 ≤ x)) :=
  ⟨by simp,
   C4_component_forecasts_nonneg [((1 : ℕ), (2 : ℚ))] [2] 1 (by simp)
     (by intro p hp; rw [List.eq_of_mem_singleton hp]; norm_num)⟩

/-- C5 counterexample: from the single-month history `[(1, -1)]` the
ensemble point has ensemble value `-3/4` but lower confidence bound
`-51/80`, so `confidenceLower ≤ ensemble` fails for this forecast point. -/
theorem C5_counterexample :
    ∃ p ∈ apply_forecasting_algorithms [(1, (-1 : ℚ))] [2],
      ¬ p.confidenceLower ≤ p.ensemble := by
  have h : apply_forecasting_algorithms [(1, (-1 : ℚ))] [2] =
      [⟨-1, -1, 0, -1, -3/4, -51/80, -69/80⟩] := by
    norm_num [apply_forecasting_algorithms, linear_trend_forecast, seasonal_forecast,
      exponential_smoothing_forecast, moving_average_forecast, listMean,
      smoothedSeries, smoothFrom, List.range_succ, List.range_zero, List.getD]
  refine ⟨⟨-1, -1, 0, -1, -3/4, -51/80, -69/80⟩, ?_, ?_⟩
  · rw [h]; exact List.mem_singleton_self _
  · norm_num

/-- C5 amended: every ensemble forecast point carries the exact
0.25/0.35/0.25/0.15 weighted combination (weights summing to 1) and the
exact ±15% confidence bounds, and the bounds bracket the ensemble whenever
the ensemble value is nonnegative. -/
theorem C5_ensemble_weights_and_band (hist : List (ℕ × ℚ))
    (futureMonths : List ℕ) (p : ForecastPoint)
    (hp : p ∈ apply_forecasting_algorithms hist futureMonths) :
    p.ensemble = p.trend * 0.25 + p.seasonal * 0.35 + p.exponential * 0.25 +
      p.movingAverage * 0.15 ∧
    ((0.25 : ℚ) + 0.35 + 0.25 + 0.15 = 1) ∧
    p.confidenceLower = p.ensemble * 0.85 ∧
    p.confidenceUpper = p.ensemble * 1.15 ∧
    (0 ≤ p.ensemble → p.confidenceLower ≤ p.ensemble ∧ p.ensemble ≤ p.confidenceUpper) := by
  unfold apply_forecasting_algorithms at hp
  obtain ⟨i, _, rfl⟩ := List.mem_map.mp hp
  refine ⟨rfl, by norm_num, rfl, rfl, fun hens => ⟨?_, ?_⟩⟩
  · exact mul_le_of_le_one_right hens (by norm_num)
  · exact le_mul_of_one_le_right hens (by norm_num)

/-- Witness for C5 at the concrete history `[(1, 100)]`: the single forecast
point is `(100, 100, 100, 100, 100, 85, 115)` and satisfies the amended
property. -/
theorem C5_ensemble_weights_and_band_witness :
    ((⟨100, 100, 100, 100, 100, 85, 115⟩ : ForecastPoint) ∈
      apply_forecasting_algorithms [(1, (100 : ℚ))] [2]) ∧
    ((100 : ℚ) = 100 * 0.25 + 100 * 0.35 + 100 * 0.25 + 100 * 0.15) := by
  have h : apply_forecasting_algorithms [(1, (100 : ℚ))] [2] =
      [⟨100, 100, 100, 100, 100, 85, 115⟩] := by
    norm_num [apply_forecasting_algorithms, linear_trend_forecast, seasonal_forecast,
      exponential_smoothing_forecast, moving_average_forecast, listMean,
      smoothedSeries, smoothFrom, List.range_succ, List.range_zero, List.getD]
  have hmem : (⟨100, 100, 100, 100, 100, 85, 115⟩ : ForecastPoint) ∈
      apply_forecasting_algorithms [(1, (100 : ℚ))] [2] := by
    rw [h]; exact List.mem_singleton_self _
  exact ⟨hmem, (C5_ensemble_weights_and_band [(1, (100 : ℚ))] [2] _ hmem).1⟩

/-- C7 counterexample: values `[10, -1]` are sorted descending with
positive total 9, yet the cumulative percentages are `[1000/9, 100]`, which
is strictly decreasing, so the claimed monotonicity fails. -/
theorem C7_counterexample :
    List.Chain' (fun a b => b ≤ a) [(10 : ℚ), -1] ∧
    0 < ([(10 : ℚ), -1]).sum ∧
    ¬ List.Chain' (· ≤ ·) (cumulativePercentage [(10 : ℚ), -1]) := by
  have h : cumulativePercentage [(10 : ℚ), -1] = [1000/9, 100] := by
    norm_num [cumulativePercentage, salesPercentage, cumsum]
  refine ⟨?_, by norm_num, ?_⟩
  · simp [List.chain'_cons]; norm_num
  · rw [h]; simp [List.chain'_cons]; norm_num

/-- C7 amended: for items sorted descending by sales value with a positive
total and nonnegative per-item values, the cumulative sales percentage is
non-decreasing, and the A/B/C boundaries are respected for every cumulative
percentage. -/
theorem C7_abc_monotonicity_and_boundaries (vals : List ℚ)
    (hsorted : List.Chain' (fun a b => b ≤ a) vals)
    (hpos : 0 < vals.sum) (hnn : ∀ v ∈ vals, 0 ≤ v) :
    List.Chain' (· ≤ ·) (cumulativePercentage vals) ∧
    (∀ c : ℚ, (c ≤ 80 → assign_abc_category c = .A) ∧
       (80 < c → c ≤ 95 → assign_abc_category c = .B) ∧
       (95 < c → assign_abc_category c = .C)) := by
  constructor
  · unfold cumulativePercentage salesPercentage
    rw [if_pos hpos]
    apply cumsum_chain
    intro v hv
    obtain ⟨w, hw, rfl⟩ := List.mem_map.mp hv
    have := hnn w hw
    positivity
  · intro c
    refine ⟨fun h1 => ?_, fun h1 h2 => ?_, fun h1 => ?_⟩
    · unfold assign_abc_category; rw [if_pos h1]
    · unfold assign_abc_category; rw [if_neg (by linarith), if_pos h2]
    · unfold assign_abc_category; rw [if_neg (by linarith), if_neg (by linarith)]

/-- Witness for C7 at the concrete sorted values `[10, 5]`. -/
theorem C7_abc_monotonicity_and_boundaries_witness :
    List.Chain' (fun a b => b ≤ a) [(10 : ℚ), 5] ∧ 0 < ([(10 : ℚ), 5]).sum ∧
    (List.Chain' (· ≤ ·) (cumulativePercentage [(10 : ℚ), 5]) ∧
     (∀ c : ℚ, (c ≤ 80 → assign_abc_category c = .A) ∧
        (80 < c → c ≤ 95 → assign_abc_category c = .B) ∧
        (95 < c → assign_abc_category c = .C))) :=
  ⟨by simp [List.chain'_cons]; norm_num, by norm_num,
   C7_abc_monotonicity_and_boundaries [(10 : ℚ), 5]
     (by simp [List.chain'_cons]; norm_num) (by norm_num)
     (by intro v hv; rcases List.mem_cons.mp hv with h | h
         · rw [h]; norm_num
         · rw [List.eq_of_mem_singleton h]; norm_num)⟩

/-- C1: for every non-discontinued item the reorder CTE's intermediate
columns coincide with the spec's reference definitions of average daily
demand, demand standard deviation, lead time, safety stock, reorder point
and EOQ. -/
theorem C1_reorder_intermediate_quantities (i : Item)
    (hd : i.discontinuado = false) :
    avgDailyDemand i = refAvgDailyDemand i ∧
    demandStdDev i = refDemandStdDev i ∧
    estimatedLeadTimeDays i = refLeadTimeDays i ∧
    safetyStock i = refSafetyStock i ∧
    reorderPoint i = refReorderPoint i ∧
    eoq i = refEOQ i := by
  refine ⟨rfl, rfl, rfl, ?_, ?_, rfl⟩
  · unfold safetyStock refSafetyStock refLeadTimeDays
    split_ifs <;> rfl
  · unfold reorderPoint refReorderPoint refSafetyStock refLeadTimeDays refAvgDailyDemand
    split_ifs <;> rfl

/-- Witness for C1 at a concrete non-discontinued Chinese-supplier item. -/
theorem C1_reorder_intermediate_quantities_witness :
    (Item.discontinuado ⟨"China", 50, 1, 180, false⟩ = false) ∧
    (avgDailyDemand ⟨"China", 50, 1, 180, false⟩ =
       refAvgDailyDemand ⟨"China", 50, 1, 180, false⟩ ∧
     demandStdDev ⟨"China", 50, 1, 180, false⟩ =
       refDemandStdDev ⟨"China", 50, 1, 180, false⟩ ∧
     estimatedLeadTimeDays ⟨"China", 50, 1, 180, false⟩ =
       refLeadTimeDays ⟨"China", 50, 1, 180, false⟩ ∧
     safetyStock ⟨"China", 50, 1, 180, false⟩ =
       refSafetyStock ⟨"China", 50, 1, 180, false⟩ ∧
     reorderPoint ⟨"China", 50, 1, 180, false⟩ =
       refReorderPoint ⟨"China", 50, 1, 180, false⟩ ∧
     eoq ⟨"China", 50, 1, 180, false⟩ = refEOQ ⟨"China", 50, 1, 180, false⟩) :=
  ⟨rfl, C1_reorder_intermediate_quantities ⟨"China", 50, 1, 180, false⟩ rfl⟩

/-- C2: for every item with recent demand, `SuggestedOrderQuantity` is the
ceiling of the larger of EOQ and `reorderPoint - currentStock + safetyStock`
below the reorder point and 0 otherwise, and it is positive exactly when the
stock is below the reorder point. -/
theorem C2_suggested_order_quantity (i : Item) (h : 0 < i.last90DaysSales) :
    suggestedOrderQuantity i =
      (if i.currentStock < reorderPoint i then
        ((⌈max (eoq i) (reorderPoint i - i.currentStock + safetyStock i)⌉ : ℤ) : ℝ)
       else 0) ∧
    (0 < suggestedOrderQuantity i ↔ i.currentStock < reorderPoint i) := by
  have hmax : (if eoq i > reorderPoint i - i.currentStock + safetyStock i then eoq i
      else reorderPoint i - i.currentStock + safetyStock i) =
      max (eoq i) (reorderPoint i - i.currentStock + safetyStock i) := by
    rw [max_def]; split_ifs <;> first | rfl | linarith
  refine ⟨by unfold suggestedOrderQuantity; rw [hmax], ?_, ?_⟩
  · intro hpos
    by_contra hnot
    unfold suggestedOrderQuantity at hpos
    rw [if_neg hnot] at hpos
    exact lt_irrefl 0 hpos
  · intro hlt
    unfold suggestedOrderQuantity
    rw [if_pos hlt]
    have hX : 0 < reorderPoint i - i.currentStock + safetyStock i := by
      have := safetyStock_nonneg i; linarith
    have harg : 0 < (if eoq i > reorderPoint i - i.currentStock + safetyStock i
        then eoq i else reorderPoint i - i.currentStock + safetyStock i) := by
      split_ifs with hgt
      · linarith
      · exact hX
    exact_mod_cast Int.ceil_pos.mpr harg

/-- Witness for C2 at the spec's example-scenario item (stock 50, 180 units
sold in 90 days, Chinese supplier). -/
theorem C2_suggested_order_quantity_witness :
    (0 < Item.last90DaysSales ⟨"China", 50, 1, 180, false⟩) ∧
    (suggestedOrderQuantity ⟨"China", 50, 1, 180, false⟩ =
      (if Item.currentStock ⟨"China", 50, 1, 180, false⟩ <
          reorderPoint ⟨"China", 50, 1, 180, false⟩ then
        ((⌈max (eoq ⟨"China", 50, 1, 180, false⟩)
            (reorderPoint ⟨"China", 50, 1, 180, false⟩ -
              Item.currentStock ⟨"China", 50, 1, 180, false⟩ +
              safetyStock ⟨"China", 50, 1, 180, false⟩)⌉ : ℤ) : ℝ)
       else 0) ∧
     (0 < suggestedOrderQuantity ⟨"China", 50, 1, 180, false⟩ ↔
       Item.currentStock ⟨"China", 50, 1, 180, false⟩ <
         reorderPoint ⟨"China", 50, 1, 180, false⟩)) :=
  ⟨by show (0 : ℝ) < 180; norm_num,
   C2_suggested_order_quantity ⟨"China", 50, 1, 180, false⟩
     (by show (0 : ℝ) < 180; norm_num)⟩

/-- C3 counterexample: an item from a 30-day-lead-time country selling 90
units in 90 days with 50 in stock has 50 days of coverage, so the claim
grades it MEDIUM, but its stock (50) is above the reorder point
(30 + 2.475·√30 ≤ 45), so the query grades it ADEQUATE. -/
theorem C3_counterexample :
    priority ⟨"Argentina", 50, 1, 90, false⟩ = .ADEQUATE ∧
    specPriority ⟨"Argentina", 50, 1, 90, false⟩ = .MEDIUM ∧
    priority ⟨"Argentina", 50, 1, 90, false⟩ ≠
      specPriority ⟨"Argentina", 50, 1, 90, false⟩ := by
  have hADD : avgDailyDemand ⟨"Argentina", 50, 1, 90, false⟩ = 1 := by
    unfold avgDailyDemand; norm_num
  have hdoc : daysOfCoverage ⟨"Argentina", 50, 1, 90, false⟩ = 50 := by
    unfold daysOfCoverage
    rw [hADD, if_pos (by norm_num : (0:ℝ) < 1)]
    show (50 : ℝ) / 1 = 50
    norm_num
  have hsd : demandStdDev ⟨"Argentina", 50, 1, 90, false⟩ = 1.5 := by
    unfold demandStdDev
    rw [if_pos (by norm_num : (90:ℝ) > 0)]
    show Real.sqrt ((90:ℝ) / 90) * 1.5 = 1.5
    norm_num [Real.sqrt_one]
  have hRP : reorderPoint ⟨"Argentina", 50, 1, 90, false⟩ =
      30 + 1.5 * Real.sqrt 30 * 1.65 := by
    unfold reorderPoint
    rw [if_neg (by decide : ¬ ("Argentina" = "China")),
      if_neg (by decide : ¬ ("Argentina" = "India")), hADD, hsd]
    ring
  have hRPle : reorderPoint ⟨"Argentina", 50, 1, 90, false⟩ ≤ 50 := by
    rw [hRP]
    have := sqrt_thirty_le_six
    linarith
  have hnlt : ¬ Item.currentStock ⟨"Argentina", 50, 1, 90, false⟩ <
      reorderPoint ⟨"Argentina", 50, 1, 90, false⟩ := by
    push_neg
    exact le_trans hRPle (by norm_num)
  have hcode : priority ⟨"Argentina", 50, 1, 90, false⟩ = .ADEQUATE := by
    unfold priority
    rw [hdoc]
    rw [if_neg (by norm_num : ¬ (50:ℝ) ≤ 0)]
    rw [if_neg (by exact fun hc => hnlt hc.1),
      if_neg (by exact fun hc => hnlt hc.1),
      if_neg (by exact fun hc => hnlt hc.1),
      if_neg hnlt]
  have hspec : specPriority ⟨"Argentina", 50, 1, 90, false⟩ = .MEDIUM := by
    unfold specPriority
    rw [hdoc]
    rw [if_neg (by norm_num : ¬ (50:ℝ) ≤ 0),
      if_neg (by norm_num : ¬ (50:ℝ) ≤ 15),
      if_neg (by norm_num : ¬ (50:ℝ) ≤ 30),
      if_pos (by norm_num : (50:ℝ) ≤ 60)]
  refine ⟨hcode, hspec, ?_⟩
  rw [hcode, hspec]
  intro hcontra
  exact ReorderPriority.noConfusion hcontra

/-- C3 amended: the reorder output keeps exactly the rows with positive
90-day sales, and the priority tiers apply the coverage thresholds
URGENT/HIGH/MEDIUM only below the reorder point — at or above it the item
is ADEQUATE (zero or negative coverage is OUT_OF_STOCK in either case). -/
theorem C3_reorder_output_and_priority (items : List Item) (i : Item) :
    (i ∈ reorderOutput items ↔ i ∈ items ∧ 0 < i.last90DaysSales) ∧
    priority i = amendedPriority i := by
  constructor
  · unfold reorderOutput
    simp [List.mem_filter]
  · unfold priority amendedPriority
    split_ifs <;> tauto
